import Mathlib

/-!
Verification of the wxpush message-relay service (FastAPI-WXPush).

This file gives a shallow embedding, in Lean 4, of the core of the
repository: the security module (`src/wxpush/core/security.py`), the
API-key dependency (`src/wxpush/core/dependencies.py`), the two vendor
adapters (`src/wxpush/services/wechat.py`,
`src/wxpush/services/workwechat.py`), the shared token helper
(`src/wxpush/utils/http_client.py`) and the GET request pipeline of
`src/wxpush/routers/send.py`.

Pure Python functions become Lean functions; the two effects that the
core reads (the process-wide settings and the wall clock) are passed
explicitly; every outbound HTTP interaction is modelled as an oracle
argument of type `Except PyExc VendorJson` describing the outcome the
`await` would have produced (a JSON payload, or a raised exception).
Python exceptions become `Except` error values.
-/

namespace WXPush

/-! ## SHA-256, HMAC-SHA256 and hex encoding

`security.py` computes `hmac.new(secret, message, sha256).hexdigest()`.
We embed SHA-256 (FIPS 180-4) and HMAC (RFC 2104) over byte lists, with
32-bit words represented as `Nat` reduced mod `2 ^ 32`.
-/

/-- Reduce a natural number to a 32-bit word. -/
def w32 (n : Nat) : Nat := n % 4294967296

/-- Reduce a natural number to a byte. -/
def w8 (n : Nat) : Nat := n % 256

/-- Right rotation of a 32-bit word. -/
def rotr32 (x n : Nat) : Nat := w32 ((x >>> n) ||| (x <<< (32 - n)))

def bigS0 (x : Nat) : Nat := rotr32 x 2 ^^^ rotr32 x 13 ^^^ rotr32 x 22

def bigS1 (x : Nat) : Nat := rotr32 x 6 ^^^ rotr32 x 11 ^^^ rotr32 x 25

def smallS0 (x : Nat) : Nat := rotr32 x 7 ^^^ rotr32 x 18 ^^^ (x >>> 3)

def smallS1 (x : Nat) : Nat := rotr32 x 17 ^^^ rotr32 x 19 ^^^ (x >>> 10)

def chF (x y z : Nat) : Nat := (x &&& y) ^^^ ((x ^^^ 4294967295) &&& z)

def majF (x y z : Nat) : Nat := (x &&& y) ^^^ (x &&& z) ^^^ (y &&& z)

/-- The 64 SHA-256 round constants (decimal). -/
def sha256K : List Nat :=
  [1116352408, 1899447441, 3049323471, 3921009573, 961987163, 1508970993,
   2453635748, 2870763221, 3624381080, 310598401, 607225278, 1426881987,
   1925078388, 2162078206, 2614888103, 3248222580, 3835390401, 4022224774,
   264347078, 604807628, 770255983, 1249150122, 1555081692, 1996064986,
   2554220882, 2821834349, 2952996808, 3210313671, 3336571891, 3584528711,
   113926993, 338241895, 666307205, 773529912, 1294757372, 1396182291,
   1695183700, 1986661051, 2177026350, 2456956037, 2730485921, 2820302411,
   3259730800, 3345764771, 3516065817, 3600352804, 4094571909, 275423344,
   430227734, 506948616, 659060556, 883997877, 958139571, 1322822218,
   1537002063, 1747873779, 1955562222, 2024104815, 2227730452, 2361852424,
   2428436474, 2756734187, 3204031479, 3329325298]

/-- SHA-256 working state: eight 32-bit words. -/
structure H8 where
  a : Nat
  b : Nat
  c : Nat
  d : Nat
  e : Nat
  f : Nat
  g : Nat
  h : Nat
deriving DecidableEq, Repr

/-- The SHA-256 initial hash value (decimal). -/
def sha256H0 : H8 :=
  ⟨1779033703, 3144134277, 1013904242, 2773480762,
   1359893119, 2600822924, 528734635, 1541459225⟩

/-- A 64-bit big-endian length field, as eight bytes. -/
def be64 (n : Nat) : List Nat :=
  [w8 (n >>> 56), w8 (n >>> 48), w8 (n >>> 40), w8 (n >>> 32),
   w8 (n >>> 24), w8 (n >>> 16), w8 (n >>> 8), w8 n]

/-- Serialize a 32-bit word as four big-endian bytes. -/
def be32 (n : Nat) : List Nat :=
  [w8 (n >>> 24), w8 (n >>> 16), w8 (n >>> 8), w8 n]

/-- SHA-256 message padding: `0x80`, zeros, then the 64-bit bit length. -/
def sha256Pad (msg : List Nat) : List Nat :=
  let len := msg.length
  msg ++ 128 :: List.replicate ((119 - len % 64) % 64) 0 ++ be64 (8 * len)

/-- Group bytes into big-endian 32-bit words (four bytes each). -/
def toWords : List Nat → List Nat
  | a :: b :: c :: d :: rest =>
      ((a <<< 24) ||| (b <<< 16) ||| (c <<< 8) ||| d) :: toWords rest
  | _ => []

/-- Split a word list into 16-word blocks (fuel-driven recursion). -/
def splitB : Nat → List Nat → List (List Nat)
  | 0, _ => []
  | _ + 1, [] => []
  | fuel + 1, l => l.take 16 :: splitB fuel (l.drop 16)

/-- Extend a 16-word block to the 64-word message schedule. -/
def schedule (block : List Nat) : Array Nat :=
  (List.range 48).foldl
    (fun w _ =>
      let s := w.size
      w.push (w32 (smallS1 w[s - 2]! + w[s - 7]! + smallS0 w[s - 15]! + w[s - 16]!)))
    (Array.mk block)

/-- One SHA-256 compression round; `kw` is `K[i] + W[i]` mod `2 ^ 32`. -/
def roundStep (s : H8) (kw : Nat) : H8 :=
  let t1 := w32 (s.h + bigS1 s.e + chF s.e s.f s.g + kw)
  let t2 := w32 (bigS0 s.a + majF s.a s.b s.c)
  ⟨w32 (t1 + t2), s.a, s.b, s.c, w32 (s.d + t1), s.e, s.f, s.g⟩

/-- Compress one 16-word block into the running hash state. -/
def compress (h0 : H8) (block : List Nat) : H8 :=
  let w := schedule block
  let kws := List.zipWith (fun k wi => w32 (k + wi)) sha256K w.toList
  let s := kws.foldl roundStep h0
  ⟨w32 (h0.a + s.a), w32 (h0.b + s.b), w32 (h0.c + s.c), w32 (h0.d + s.d),
   w32 (h0.e + s.e), w32 (h0.f + s.f), w32 (h0.g + s.g), w32 (h0.h + s.h)⟩

/-- SHA-256 of a byte list, as a 32-byte list. -/
def sha256 (msg : List Nat) : List Nat :=
  let words := toWords (sha256Pad msg)
  let hf := (splitB words.length words).foldl compress sha256H0
  ([hf.a, hf.b, hf.c, hf.d, hf.e, hf.f, hf.g, hf.h].map be32).foldr (· ++ ·) []

/-- HMAC-SHA256 (RFC 2104) with a 64-byte block size. -/
def hmacSha256 (key msg : List Nat) : List Nat :=
  let k0 := if 64 < key.length then sha256 key else key
  let kp := k0 ++ List.replicate (64 - k0.length) 0
  sha256 (kp.map (fun b => b ^^^ 92) ++ sha256 (kp.map (fun b => b ^^^ 54) ++ msg))

/-- UTF-8 encoding of one Unicode scalar value. -/
def utf8Bytes (c : Char) : List Nat :=
  let v := c.toNat
  if v < 128 then [v]
  else if v < 2048 then [192 + v / 64, 128 + v % 64]
  else if v < 65536 then [224 + v / 4096, 128 + (v / 64) % 64, 128 + v % 64]
  else [240 + v / 262144, 128 + (v / 4096) % 64, 128 + (v / 64) % 64, 128 + v % 64]

/-- UTF-8 bytes of a string, mirroring Python's `str.encode("utf-8")`. -/
def strBytes (s : String) : List Nat :=
  s.toList.foldr (fun c acc => utf8Bytes c ++ acc) []

/-- Lower-case hex digit for a value below 16. -/
def hexChar (n : Nat) : Char :=
  if n < 10 then Char.ofNat (48 + n) else Char.ofNat (87 + n)

/-- Two lower-case hex digits of one byte. -/
def byteHex (b : Nat) : String := String.mk [hexChar (b / 16), hexChar (b % 16)]

/-- Lower-case hex of a byte list, mirroring Python's `.hexdigest()`. -/
def bytesToHex (bs : List Nat) : String := String.join (bs.map byteHex)

/-! ## Python fragments used by the source

`int(...)` on strings, `in` substring tests and `str.split` slicing are
embedded as executable functions over character lists with the
semantics of the CPython builtins. `int(str)` strips the characters
`Py_UNICODE_ISSPACE` holds for (bidirectional classes WS/B/S and
category Zs), then parses one optional ASCII sign followed by a
non-empty run of Unicode decimal digits (category Nd, any script, mixed
scripts allowed) with single interior underscores.
-/

/-- The codepoints `Py_UNICODE_ISSPACE` accepts, stripped by `int(str)`:
TAB..CR, FS..US (0x1C-0x1F), space, NEL (0x85), and the Unicode line,
paragraph and space separators. -/
def pyWsCodes : List Nat :=
  [9, 10, 11, 12, 13, 28, 29, 30, 31, 32, 133, 160, 5760,
   8192, 8193, 8194, 8195, 8196, 8197, 8198, 8199, 8200, 8201, 8202,
   8232, 8233, 8239, 8287, 12288]

/-- Whitespace for `int(str)`. -/
def isPyWs (c : Char) : Bool := pyWsCodes.contains c.toNat

/-- First codepoints of the decimal-digit runs of Unicode 15.0
(category Nd, the digits CPython 3.12/3.13 parse): every Nd run is ten
consecutive codepoints carrying digit values 0..9 in order. -/
def ndStarts : List Nat :=
  [0x30, 0x660, 0x6F0, 0x7C0, 0x966, 0x9E6, 0xA66, 0xAE6, 0xB66, 0xBE6,
   0xC66, 0xCE6, 0xD66, 0xDE6, 0xE50, 0xED0, 0xF20, 0x1040, 0x1090, 0x17E0,
   0x1810, 0x1946, 0x19D0, 0x1A80, 0x1A90, 0x1B50, 0x1BB0, 0x1C40, 0x1C50,
   0xA620, 0xA8D0, 0xA900, 0xA9D0, 0xA9F0, 0xAA50, 0xABF0, 0xFF10,
   0x104A0, 0x10D30, 0x11066, 0x110F0, 0x11136, 0x111D0, 0x112F0, 0x11450,
   0x114D0, 0x11650, 0x116C0, 0x11730, 0x118E0, 0x11950, 0x11C50, 0x11D50,
   0x11DA0, 0x11F50, 0x16A60, 0x16AC0, 0x16B50,
   0x1D7CE, 0x1D7D8, 0x1D7E2, 0x1D7EC, 0x1D7F6,
   0x1E140, 0x1E2F0, 0x1E4F0, 0x1E950, 0x1FBF0]

/-- Decimal value of a Unicode Nd digit, `none` for every other
character. -/
def pyDigitVal (c : Char) : Option Nat :=
  (ndStarts.find? (fun s => s ≤ c.toNat && c.toNat < s + 10)).map
    (fun s => c.toNat - s)

/-- Character class of digits `int(str)` accepts. -/
def isPyDigit (c : Char) : Bool := (pyDigitVal c).isSome

/-- Digits-with-underscores tail: after a digit, `_` must be followed by a digit. -/
def pyDigitsTail : List Char → Bool
  | [] => true
  | '_' :: rest =>
    match rest with
    | [] => false
    | c :: rest' => isPyDigit c && pyDigitsTail rest'
  | c :: rest => isPyDigit c && pyDigitsTail rest

/-- A non-empty run of decimal digits with single interior underscores. -/
def pyDigitsOk : List Char → Bool
  | [] => false
  | c :: rest => isPyDigit c && pyDigitsTail rest

/-- Numeric value of a digit run (underscores skipped). -/
def digitsVal (l : List Char) : Nat :=
  (l.filter (fun c => c ≠ '_')).foldl
    (fun acc c => 10 * acc + (pyDigitVal c).getD 0) 0

/-- The unsigned part of `int(str)`. -/
def pyNatParse (l : List Char) : Option Nat :=
  if pyDigitsOk l then some (digitsVal l) else none

/-- Python `int(str)` over characters: strip whitespace, one optional sign,
digits. Returns `none` where Python raises `ValueError`. -/
def pyIntParseL (l : List Char) : Option Int :=
  let core := ((l.dropWhile isPyWs).reverse.dropWhile isPyWs).reverse
  match core with
  | '+' :: rest => (pyNatParse rest).map Int.ofNat
  | '-' :: rest => (pyNatParse rest).map (fun n => -(n : Int))
  | rest => (pyNatParse rest).map Int.ofNat

/-- Python `int(str)` on a string. -/
def pyIntParse (s : String) : Option Int := pyIntParseL s.toList

/-- Boolean prefix test on character lists. -/
def isPre : List Char → List Char → Bool
  | [], _ => true
  | _ :: _, [] => false
  | a :: as, b :: bs => a = b && isPre as bs

/-- The characters after the first occurrence of `sep` (a non-empty
pattern), or `none` when `sep` does not occur: the scan underlying both
Python's `sep in s` and `s.split(sep)[1]`. -/
def afterFirst (sep : List Char) : List Char → Option (List Char)
  | [] => none
  | c :: rest =>
    if isPre sep (c :: rest) then some (List.drop sep.length (c :: rest))
    else afterFirst sep rest

/-- The characters before the first occurrence of `sep` (all of them when
`sep` does not occur): Python's `s.split(sep)[0]`. -/
def beforeFirst (sep : List Char) : List Char → List Char
  | [] => []
  | c :: rest =>
    if isPre sep (c :: rest) then [] else c :: beforeFirst sep rest

/-- Python's `needle in haystack` substring test. -/
def pyContains (haystack needle : String) : Bool :=
  (afterFirst needle.toList haystack.toList).isSome

/-! ## Settings (`core/config.py`)

The loaded process configuration; `api_keys` models the value of
`settings.api_keys_list` (the pydantic validator always materializes a
list), the three optional fields model `str | None` settings.
-/

structure Settings where
  api_keys : List String
  api_key_secret : Option String
  default_wechat_template_id : Option String
  default_workwechat_agentid : Option String
deriving DecidableEq, Repr

/-! ## Security module (`core/security.py`) -/

/-- Constant `TIMESTAMP_VALIDITY_WINDOW = 300`. -/
def TIMESTAMP_VALIDITY_WINDOW : Int := 300

/-- Embeds `verify_api_key`: empty keys are rejected, an empty configured list
rejects everything, otherwise membership in `settings.api_keys_list`. -/
def verify_api_key (st : Settings) (api_key : String) : Bool :=
  if api_key = "" then false
  else if st.api_keys = [] then false
  else st.api_keys.contains api_key

/-- Embeds `generate_signature`: resolve the secret (`None` falls back to
`settings.api_key_secret or ""`), raise (`none`) on an empty secret,
else the hex HMAC-SHA256 of `f"{api_key}{timestamp}{payload}"`. -/
def generate_signature (st : Settings) (api_key : String) (timestamp : Int)
    (payload : String) (secret : Option String) : Option String :=
  let s := match secret with
    | none => st.api_key_secret.getD ""
    | some v => v
  if s = "" then none
  else some (bytesToHex (hmacSha256 (strBytes s)
    (strBytes (api_key ++ toString timestamp ++ payload))))

/-- Embeds `verify_signature`: recompute the expected signature and compare
(`hmac.compare_digest` is equality up to timing; its `TypeError` on
non-ASCII input cannot flip the outcome because the expected digest is
pure hex, and the `except` clause returns `False` either way). -/
def verify_signature (st : Settings) (api_key : String) (timestamp : Int)
    (payload : String) (signature : String) (secret : Option String) : Bool :=
  match generate_signature st api_key timestamp payload secret with
  | none => false
  | some expected => expected = signature

/-- Embeds `verify_timestamp`: `abs(int(time.time()) - timestamp) <= validity_window`;
the clock read is passed explicitly as `now`. -/
def verify_timestamp (now timestamp : Int)
    (validity_window : Int := TIMESTAMP_VALIDITY_WINDOW) : Bool :=
  |now - timestamp| ≤ validity_window

/-- Truthiness of the optional `signature` argument: Python's
`if signature:` is `False` exactly for `None` and `""`. -/
def sigTruthy : Option String → Bool
  | none => false
  | some s => s ≠ ""

/-- Embeds `validate_api_key_with_signature`: key check first; the signature
branch only runs for a truthy signature and then demands a timestamp,
a fresh timestamp and a matching signature, in that order. -/
def validate_api_key_with_signature (st : Settings) (now : Int) (api_key : String)
    (timestamp : Option Int) (payload : String) (signature : Option String) :
    Bool × String :=
  if ¬ verify_api_key st api_key then (false, "项目识别码无效")
  else if sigTruthy signature then
    match timestamp with
    | none => (false, "使用签名验证时，时间戳参数必填")
    | some ts =>
      if ¬ verify_timestamp now ts then (false, "请求时间戳过期")
      else if ¬ verify_signature st api_key ts payload ((signature).getD "") none then
        (false, "识别码签名验证失败")
      else (true, "验证成功")
  else (true, "验证成功")

/-! ## API-key dependency (`core/dependencies.py`)

`verify_api_key_dependency` validates and, on failure, raises an
`HTTPException(401)` whose detail errcode is chosen by substring tests
on the error message. The canonical `payload` string (built by the
framework wrapper from the query parameters when a signature is given)
is passed in explicitly.
-/

/-- Error codes of `core/dependencies.py`. -/
def ERRCODE_INVALID_API_KEY : Int := 40001

def ERRCODE_INVALID_SIGNATURE : Int := 40002

def ERRCODE_TIMESTAMP_EXPIRED : Int := 40003

/-- A raised `fastapi.HTTPException` with its `detail` dict. -/
structure HTTPError where
  status_code : Nat
  errcode : Int
  errmsg : String
deriving DecidableEq, Repr

/-- The errcode chosen for a validation failure message. -/
def classify_auth_errcode (error_msg : String) : Int :=
  if pyContains error_msg "签名验证失败" then ERRCODE_INVALID_SIGNATURE
  else if pyContains error_msg "时间戳过期" then ERRCODE_TIMESTAMP_EXPIRED
  else ERRCODE_INVALID_API_KEY

/-- Embeds `verify_api_key_dependency` for GET requests: returns the validated
key or raises HTTP 401 with the classified errcode. -/
def verify_api_key_dependency (st : Settings) (now : Int) (api_key : String)
    (timestamp : Option Int) (signature : Option String) (payload : String) :
    Except HTTPError String :=
  let r := validate_api_key_with_signature st now api_key timestamp payload signature
  if r.1 then .ok api_key
  else .error ⟨401, classify_auth_errcode r.2, r.2⟩

/-! ## Vendor layer (`utils/http_client.py` and the two services)

A vendor JSON payload is modelled as the record of fields the services
read; absent keys are `none`. The outcome of one outbound HTTP call is
`Except PyExc VendorJson`: either the decoded JSON or the exception the
`await` raised.
-/

instance {ε α : Type} [DecidableEq ε] [DecidableEq α] : DecidableEq (Except ε α) := fun
  | .error e, .error f =>
    if h : e = f then .isTrue (h ▸ rfl) else .isFalse (fun hh => by cases hh; exact h rfl)
  | .error _, .ok _ => .isFalse (fun h => by cases h)
  | .ok _, .error _ => .isFalse (fun h => by cases h)
  | .ok a, .ok b =>
    if h : a = b then .isTrue (h ▸ rfl) else .isFalse (fun hh => by cases hh; exact h rfl)

/-- A raised Python exception, by the classes the services distinguish. -/
inductive PyExc where
  /-- `ValueError` (incl. `json.JSONDecodeError`), carrying `str(e)`. -/
  | valueError (msg : String)
  /-- `httpx.HTTPStatusError`, carrying `e.response.status_code` and `str(e)`. -/
  | httpStatusError (status : Nat) (msg : String)
  /-- `httpx.RequestError`, carrying `str(e)`. -/
  | requestError (msg : String)
  /-- any other `Exception`, carrying `str(e)`. -/
  | other (msg : String)
deriving DecidableEq, Repr

/-- Computes `str(e)` of a modelled exception. -/
def excMsg : PyExc → String
  | .valueError m => m
  | .httpStatusError _ m => m
  | .requestError m => m
  | .other m => m

/-- The JSON fields of a vendor response that the services read. -/
structure VendorJson where
  errcode : Option Int
  errmsg : Option String
  access_token : Option String
  expires_in : Option Int
  msgid : Option Int
deriving DecidableEq, Repr

/-- The unified `{errcode, errmsg, msgid}` result dict of both
dispatchers (`msgid` is `response_data.get("msgid")`, absent → `None`). -/
structure SendResult where
  errcode : Int
  errmsg : String
  msgid : Option Int
deriving DecidableEq, Repr

/-- Extraction of `access_token`/`expires_in` from a decoded token
response: `response_data.get("access_token")` must be present and
non-empty (`if not access_token`), `expires_in` defaults to 7200. -/
def token_of_json (rd : VendorJson) : Except PyExc (String × Int) :=
  if rd.access_token.getD "" = "" then
    .error (.valueError "Access token not found in response")
  else .ok (rd.access_token.getD "", rd.expires_in.getD 7200)

/-- Embeds `http_client.get_access_token`: decode the token response, turn a
non-zero vendor errcode or a missing/empty token into `ValueError`, and
wrap the two httpx exception classes as `ValueError`; other exceptions
(and `ValueError` from JSON decoding) propagate unchanged. -/
def http_get_access_token (fetched : Except PyExc VendorJson) :
    Except PyExc (String × Int) :=
  match fetched with
  | .error (.httpStatusError status _) =>
      .error (.valueError ("Failed to get access token: HTTP " ++ toString status))
  | .error (.requestError m) =>
      .error (.valueError ("Failed to get access token: " ++ m))
  | .error e => .error e
  | .ok rd =>
    match rd.errcode with
    | some ec =>
      if ec ≠ 0 then
        .error (.valueError ("WeChat API error: errcode=" ++ toString ec ++
          ", errmsg=" ++ rd.errmsg.getD "Unknown error"))
      else token_of_json rd
    | none => token_of_json rd

/-- The marker Python scrapes errcodes out of error text with. -/
def errMark : List Char := "errcode=".toList

/-- Embeds `error_msg.split("errcode=")[1].split(",")[0]` guarded by
`"errcode=" in error_msg` and `int(...)`, defaulting to 50000: the text
between the first `errcode=` and the next `errcode=` is cut at its
first comma and parsed as a Python int. -/
def extract_errcodeL (l : List Char) : Int :=
  match afterFirst errMark l with
  | none => 50000
  | some tail =>
    match pyIntParseL (beforeFirst [','] (beforeFirst errMark tail)) with
    | some n => n
    | none => 50000

/-- Errcode scraping on a message string. -/
def extract_errcode (s : String) : Int := extract_errcodeL s.toList

/-- The `except` clauses shared by both dispatchers' `send_message`:
`ValueError` text is scraped for a vendor errcode, any other exception
becomes the generic 50000 result. -/
def dispatch_error_result (e : PyExc) : SendResult :=
  match e with
  | .valueError m => ⟨extract_errcode m, m, none⟩
  | e => ⟨50000, "发送消息失败: " ++ excMsg e, none⟩

/-! ## Platform A adapter (`services/wechat.py`, `WeChatService`) -/

/-- Resolution of `template_id`: an explicit falsy value (absent or `""`)
falls back to `settings.default_wechat_template_id`; the result `""`
means "still absent". -/
def resolveTemplateId (st : Settings) (template_id : Option String) : String :=
  match template_id with
  | some t => if t = "" then st.default_wechat_template_id.getD "" else t
  | none => st.default_wechat_template_id.getD ""

/-- Message raised by `send_template_message` when no template id can be
resolved. -/
def TEMPLATE_ID_REQUIRED_MSG : String :=
  "template_id 是必需的。请在请求中提供 template_id 参数，或在配置中设置 default_wechat_template_id"

/-- Embeds `WeChatService.send_template_message`: raise when no template id is
available, otherwise POST the template payload (`post` is the outcome of
that call) and turn a non-zero vendor errcode into `ValueError`;
non-`ValueError` exceptions from the POST are wrapped. -/
def send_template_message (st : Settings) (template_id : Option String)
    (post : Except PyExc VendorJson) : Except PyExc VendorJson :=
  let tid := resolveTemplateId st template_id
  if tid = "" then .error (.valueError TEMPLATE_ID_REQUIRED_MSG)
  else
    match post with
    | .error (.valueError m) => .error (.valueError m)
    | .error e => .error (.valueError ("发送微信模板消息失败: " ++ excMsg e))
    | .ok rd =>
      match rd.errcode with
      | some ec =>
        if ec ≠ 0 then
          .error (.valueError ("微信 API 错误: errcode=" ++ toString ec ++
            ", errmsg=" ++ rd.errmsg.getD "Unknown error"))
        else .ok rd
      | none => .ok rd

/-- Embeds `WeChatService.send_message`: token fetch (`WeChatService.get_access_token`
re-raises `http_client.get_access_token`'s errors unchanged), then the
template send, normalized to `{errcode, errmsg, msgid}` with the shared
`except` conversion. `tok`/`post` are the outcomes of the two outbound
calls. -/
def wechat_send_message (st : Settings) (template_id : Option String)
    (tok post : Except PyExc VendorJson) : SendResult :=
  match http_get_access_token tok with
  | .error e => dispatch_error_result e
  | .ok _ =>
    match send_template_message st template_id post with
    | .error e => dispatch_error_result e
    | .ok rd => ⟨0, "ok", rd.msgid⟩

/-- Number of outbound vendor HTTP calls one `WeChatService.send_message`
execution performs: the token fetch always runs first; the template POST
runs only if the token fetch succeeded and a template id resolved. -/
def wechat_vendor_calls (st : Settings) (template_id : Option String)
    (tok : Except PyExc VendorJson) : Nat :=
  match http_get_access_token tok with
  | .error _ => 1
  | .ok _ => if resolveTemplateId st template_id = "" then 1 else 2

/-! ## Platform B adapter (`services/workwechat.py`, `WorkWeChatService`) -/

/-- Resolution of `agentid`: an explicit falsy value falls back to
`settings.default_workwechat_agentid`; `""` means "still absent". -/
def resolveAgentid (st : Settings) (agentid : Option String) : String :=
  match agentid with
  | some a => if a = "" then st.default_workwechat_agentid.getD "" else a
  | none => st.default_workwechat_agentid.getD ""

/-- Message of the missing-agentid error result. -/
def AGENTID_REQUIRED_MSG : String :=
  "agentid 是必需的。请在请求中提供 agentid 参数，或在配置中设置 default_workwechat_agentid"

/-- Message of the non-integer-agentid error result (the resolved agentid
is always a `str` here, so `type(agentid).__name__` is `"str"`). -/
def AGENTID_NOT_INT_MSG (agentid : String) : String :=
  "agentid 必须是有效的整数，当前值: " ++ agentid ++ "，类型: str"

/-- Embeds `WorkWeChatService.get_access_token`: fetch the token JSON directly
(`fetch`), turn a non-zero errcode or missing/empty token into
`ValueError` (re-raised by `except ValueError: raise`), and wrap any
non-`ValueError` exception. -/
def ww_get_access_token (fetch : Except PyExc VendorJson) :
    Except PyExc (String × Int) :=
  match fetch with
  | .error (.valueError m) => .error (.valueError m)
  | .error e => .error (.valueError ("获取企业微信 Access Token 失败: " ++ excMsg e))
  | .ok rd =>
    match rd.errcode with
    | some ec =>
      if ec ≠ 0 then
        .error (.valueError ("企业微信 API 错误: errcode=" ++ toString ec ++
          ", errmsg=" ++ rd.errmsg.getD "Unknown error"))
      else token_of_json rd
    | none => token_of_json rd

/-- Embeds `WorkWeChatService._send_text_message`: re-validate `int(agentid)`
(raising `ValueError` outside the try block), POST the text message and
map a non-zero vendor errcode to `ValueError`; non-`ValueError`
exceptions from the POST are wrapped. -/
def ww_send_text_message (agentid : String) (post : Except PyExc VendorJson) :
    Except PyExc VendorJson :=
  match pyIntParse agentid with
  | none => .error (.valueError ("agentid 必须是有效的整数，当前值: " ++ agentid))
  | some _ =>
    match post with
    | .error (.valueError m) => .error (.valueError m)
    | .error e => .error (.valueError ("发送企业微信消息失败: " ++ excMsg e))
    | .ok rd =>
      match rd.errcode with
      | some ec =>
        if ec ≠ 0 then
          .error (.valueError ("企业微信 API 错误: errcode=" ++ toString ec ++
            ", errmsg=" ++ rd.errmsg.getD "Unknown error"))
        else .ok rd
      | none => .ok rd

/-- Embeds `WorkWeChatService.send_message`: resolve `agentid` and *return*
(not raise) a 40000 error result when it is absent or non-integer；
otherwise token fetch then text send (with `str(agentid_int)`),
normalized exactly as on Platform A. -/
def workwechat_send_message (st : Settings) (agentid : Option String)
    (tok post : Except PyExc VendorJson) : SendResult :=
  let ag := resolveAgentid st agentid
  if ag = "" then ⟨40000, AGENTID_REQUIRED_MSG, none⟩
  else
    match pyIntParse ag with
    | none => ⟨40000, AGENTID_NOT_INT_MSG ag, none⟩
    | some n =>
      match ww_get_access_token tok with
      | .error e => dispatch_error_result e
      | .ok _ =>
        match ww_send_text_message (toString n) post with
        | .error e => dispatch_error_result e
        | .ok rd => ⟨0, "ok", rd.msgid⟩

/-- Number of outbound vendor HTTP calls one
`WorkWeChatService.send_message` execution performs: none when the
agentid is absent or non-integer; otherwise the token fetch, plus the
text POST when the token fetch succeeded. -/
def workwechat_vendor_calls (st : Settings) (agentid : Option String)
    (tok : Except PyExc VendorJson) : Nat :=
  let ag := resolveAgentid st agentid
  if ag = "" then 0
  else
    match pyIntParse ag with
    | none => 0
    | some _ =>
      match ww_get_access_token tok with
      | .error _ => 1
      | .ok _ => 2

/-! ## Router (`routers/send.py`, GET pipeline) -/

/-- The request model built from the query parameters. -/
structure SendRequest where
  api_key : String
  title : String
  content : String
  appid : String
  secret : String
  userid : String
  base_url : Option String
  template_id : Option String
  agentid : Option String
  channel : String
  timestamp : Option Int
  signature : Option String
deriving DecidableEq, Repr

/-- Embeds `parse_send_request_from_query`: reject unknown channels with
HTTP 400 / errcode 40000 before constructing the request model. -/
def parse_send_request_from_query (api_key title content appid secret userid : String)
    (base_url template_id agentid : Option String) (channel : String)
    (timestamp : Option Int) (signature : Option String) :
    Except HTTPError SendRequest :=
  if channel ≠ "wechat" ∧ channel ≠ "workwechat" then
    .error ⟨400, 40000, "无效的 channel 参数: " ++ channel ++ "，必须是 'wechat' 或 'workwechat'"⟩
  else
    .ok ⟨api_key, title, content, appid, secret, userid, base_url, template_id,
      agentid, channel, timestamp, signature⟩

/-- Embeds `send_message_handler`: dispatch on `channel`, then raise HTTP 400
with the result's own errcode/errmsg when it is non-zero, else return
the result (the auto-generated detail URL only feeds `base_url`, which
no further branch reads). -/
def send_message_handler (st : Settings) (req : SendRequest)
    (tok post : Except PyExc VendorJson) : Except HTTPError SendResult :=
  let result :=
    if req.channel = "workwechat" then
      workwechat_send_message st req.agentid tok post
    else
      wechat_send_message st req.template_id tok post
  if result.errcode ≠ 0 then .error ⟨400, result.errcode, result.errmsg⟩
  else .ok result

/-- The GET `/send` pipeline: FastAPI resolves
`verify_api_key_dependency` first (inside the
`parse_send_request_from_query` dependency), then the channel check,
then the handler. -/
def send_message_get (st : Settings) (now : Int)
    (api_key title content appid secret userid : String)
    (base_url template_id agentid : Option String) (channel : String)
    (timestamp : Option Int) (signature : Option String) (payload : String)
    (tok post : Except PyExc VendorJson) : Except HTTPError SendResult :=
  match verify_api_key_dependency st now api_key timestamp signature payload with
  | .error e => .error e
  | .ok key =>
    match parse_send_request_from_query key title content appid secret userid
      base_url template_id agentid channel timestamp signature with
    | .error e => .error e
    | .ok req => send_message_handler st req tok post

/-- Number of outbound vendor HTTP calls one GET `/send` execution
performs. -/
def send_get_vendor_calls (st : Settings) (now : Int)
    (api_key title content appid secret userid : String)
    (base_url template_id agentid : Option String) (channel : String)
    (timestamp : Option Int) (signature : Option String) (payload : String)
    (tok : Except PyExc VendorJson) : Nat :=
  match verify_api_key_dependency st now api_key timestamp signature payload with
  | .error _ => 0
  | .ok key =>
    match parse_send_request_from_query key title content appid secret userid
      base_url template_id agentid channel timestamp signature with
    | .error _ => 0
    | .ok req =>
      if req.channel = "workwechat" then workwechat_vendor_calls st req.agentid tok
      else wechat_vendor_calls st req.template_id tok

/-! ## Result-shape predicates used by the error-normalization claims -/

/-- A loaded configuration with one API key and a signing secret. -/
def wtSettings : Settings := ⟨["test_api_key_12345"], some "test_secret", none, none⟩

/-- A successful token response. -/
def wtTokOK : Except PyExc VendorJson := .ok ⟨none, none, some "T", some 7200, none⟩

/-- A successful send response carrying a msgid. -/
def wtSendOK : Except PyExc VendorJson := .ok ⟨some 0, some "ok", none, none, some 123456789⟩

/-! ## Shared lemmas -/

/-- Claim C2: for every `(api_key, timestamp, payload)` and non-empty
secret, `verify_signature` returns `true` exactly when the supplied
signature equals the hex HMAC-SHA256 of `api_key ++ timestamp ++ payload`
under that secret; `generate_signature` followed by `verify_signature`
round-trips, and any signature differing from the expected one (in even
one character, hence unequal) verifies `false`. -/
theorem claim2_sign_verify (st : Settings) (api_key payload secret : String)
    (timestamp : Int) (h : secret ≠ "") :
    (∀ sig : String,
      verify_signature st api_key timestamp payload sig (some secret) = true ↔
        sig = bytesToHex (hmacSha256 (strBytes secret)
          (strBytes (api_key ++ toString timestamp ++ payload)))) ∧
    (∃ g, generate_signature st api_key timestamp payload (some secret) = some g ∧
      verify_signature st api_key timestamp payload g (some secret) = true ∧
      ∀ sig, sig ≠ g →
        verify_signature st api_key timestamp payload sig (some secret) = false) := by
  have hgen : generate_signature st api_key timestamp payload (some secret) =
      some (bytesToHex (hmacSha256 (strBytes secret)
        (strBytes (api_key ++ toString timestamp ++ payload)))) := by
    simp [generate_signature, h]
  constructor
  · intro sig
    rw [verify_signature, hgen]
    simp [eq_comm]
  · refine ⟨_, hgen, ?_, ?_⟩
    · rw [verify_signature, hgen]
      simp
    · intro sig hne
      rw [verify_signature, hgen]
      simpa using fun hh => (hne hh.symm).elim

/-- Witness for C2 at a concrete key, payload, timestamp and secret. -/
theorem claim2_witness :
    verify_signature wtSettings "test_api_key_12345" 1700000000 "payload"
      (bytesToHex (hmacSha256 (strBytes "test_secret")
        (strBytes ("test_api_key_12345" ++ toString (1700000000 : Int) ++ "payload"))))
      (some "test_secret") = true :=
  ((claim2_sign_verify wtSettings "test_api_key_12345" "payload" "test_secret"
    1700000000 (by decide)).1 _).mpr rfl

/-- Claim C3: `verify_timestamp` accepts exactly the timestamps with
`|now - t| ≤ 300`; the window is symmetric and inclusive: offsets of
exactly 300 in either direction pass, 301 fails. -/
theorem claim3_timestamp_window (now t : Int) :
    (verify_timestamp now t = true ↔ |now - t| ≤ 300) ∧
    verify_timestamp now (now - 300) = true ∧
    verify_timestamp now (now + 300) = true ∧
    verify_timestamp now (now - 301) = false ∧
    verify_timestamp now (now + 301) = false := by
  refine ⟨?_, ?_, ?_, ?_, ?_⟩ <;>
    simp only [verify_timestamp, TIMESTAMP_VALIDITY_WINDOW, decide_eq_true_eq,
      decide_eq_false_iff_not, abs_le] <;>
    omega

/-- Claim C9: with an empty loaded credential list, `verify_api_key`
rejects every key, including non-empty ones. -/
theorem claim9_empty_keys_reject_all (st : Settings) (api_key : String)
    (h : st.api_keys = []) : verify_api_key st api_key = false := by
  unfold verify_api_key
  rw [h]
  simp

/-- Witness for C9: a configuration with no keys rejects a non-empty key. -/
theorem claim9_witness :
    verify_api_key ⟨[], some "test_secret", none, none⟩ "some_nonempty_key" = false :=
  claim9_empty_keys_reject_all ⟨[], some "test_secret", none, none⟩ "some_nonempty_key" rfl

/-- Claim C10: an empty-string signature is falsy, so for a valid
api_key `validate_api_key_with_signature` succeeds in API-key-only mode
for every timestamp (present, absent, or stale) and payload, skipping
the timestamp and HMAC checks. -/
theorem claim10_empty_signature_skips_checks (st : Settings) (now : Int)
    (api_key payload : String) (timestamp : Option Int)
    (h : verify_api_key st api_key = true) :
    validate_api_key_with_signature st now api_key timestamp payload (some "") =
      (true, "验证成功") := by
  simp [validate_api_key_with_signature, h, sigTruthy]

/-- Witness for C10: a valid key with `signature=""` passes both with no
timestamp and with a timestamp far outside the window. -/
theorem claim10_witness :
    validate_api_key_with_signature wtSettings 1700000000 "test_api_key_12345"
      none "p" (some "") = (true, "验证成功") ∧
    validate_api_key_with_signature wtSettings 1700000000 "test_api_key_12345"
      (some 5) "p" (some "") = (true, "验证成功") :=
  ⟨claim10_empty_signature_skips_checks wtSettings 1700000000 "test_api_key_12345"
      "p" none (by decide),
   claim10_empty_signature_skips_checks wtSettings 1700000000 "test_api_key_12345"
      "p" (some 5) (by decide)⟩

/-- Claim C8: for every api_key that is empty or not in the loaded
credential list, validation fails with the invalid-key reason regardless
of timestamp, payload and signature; the dependency surfaces it as
HTTP 401 / errcode 40001; the GET pipeline propagates that error and
performs zero vendor calls. -/
theorem claim8_invalid_key_rejected (st : Settings) (now : Int)
    (api_key title content appid secret userid : String)
    (base_url template_id agentid : Option String) (channel : String)
    (timestamp : Option Int) (signature : Option String) (payload : String)
    (tok post : Except PyExc VendorJson)
    (h : api_key = "" ∨ st.api_keys.contains api_key = false) :
    validate_api_key_with_signature st now api_key timestamp payload signature =
      (false, "项目识别码无效") ∧
    verify_api_key_dependency st now api_key timestamp signature payload =
      .error ⟨401, ERRCODE_INVALID_API_KEY, "项目识别码无效"⟩ ∧
    send_message_get st now api_key title content appid secret userid base_url
      template_id agentid channel timestamp signature payload tok post =
      .error ⟨401, ERRCODE_INVALID_API_KEY, "项目识别码无效"⟩ ∧
    send_get_vendor_calls st now api_key title content appid secret userid base_url
      template_id agentid channel timestamp signature payload tok = 0 := by
  have hv : verify_api_key st api_key = false := by
    unfold verify_api_key
    rcases h with h | h
    · rw [if_pos h]
    · by_cases he : api_key = ""
      · rw [if_pos he]
      · rw [if_neg he]
        by_cases hl : st.api_keys = []
        · rw [if_pos hl]
        · rw [if_neg hl]
          exact h
  have hval : validate_api_key_with_signature st now api_key timestamp payload signature =
      (false, "项目识别码无效") := by
    unfold validate_api_key_with_signature
    simp [hv]
  have hcl : classify_auth_errcode "项目识别码无效" = ERRCODE_INVALID_API_KEY := by decide
  have hdep : verify_api_key_dependency st now api_key timestamp signature payload =
      .error ⟨401, ERRCODE_INVALID_API_KEY, "项目识别码无效"⟩ := by
    simp [verify_api_key_dependency, hval, hcl]
  refine ⟨hval, hdep, ?_, ?_⟩
  · unfold send_message_get
    rw [hdep]
  · unfold send_get_vendor_calls
    rw [hdep]

/-- Witness for C8: the unknown key `"invalid_key"` is rejected with
401 / 40001 and no vendor call. -/
theorem claim8_witness :
    send_message_get wtSettings 1700000000 "invalid_key" "t" "c" "a" "s" "u"
      none none none "wechat" none none "" wtTokOK wtSendOK =
      .error ⟨401, ERRCODE_INVALID_API_KEY, "项目识别码无效"⟩ ∧
    send_get_vendor_calls wtSettings 1700000000 "invalid_key" "t" "c" "a" "s" "u"
      none none none "wechat" none none "" wtTokOK = 0 := by
  have h := claim8_invalid_key_rejected wtSettings 1700000000 "invalid_key" "t" "c"
    "a" "s" "u" none none none "wechat" none none "" wtTokOK wtSendOK
    (Or.inr (by decide))
  exact ⟨h.2.2.1, h.2.2.2⟩

/-- Claim C4 counterexample: with a valid key, a supplied signature and
no timestamp, the dependency rejects with errcode 40001 — not the 40003
the claim states — because the missing-timestamp message matches neither
the "签名验证失败" nor the "时间戳过期" classification patterns. -/
theorem claim4_counterexample :
    verify_api_key_dependency wtSettings 1700000000 "test_api_key_12345" none
      (some "sig") "" =
      .error ⟨401, 40001, "使用签名验证时，时间戳参数必填"⟩ ∧
    (40001 : Int) ≠ 40003 := by decide

/-- Claim C4 (amended): with a valid api_key, a supplied (non-empty)
signature and no timestamp, validation rejects before any vendor call
with HTTP 401 and errcode 40001 — the invalid-key fallback code, since
the missing-timestamp message matches no special pattern — with an error
message that mentions the timestamp ("时间戳"). -/
theorem claim4_missing_timestamp_amended (st : Settings) (now : Int)
    (api_key payload sig : String) (hk : verify_api_key st api_key = true)
    (hs : sig ≠ "") :
    verify_api_key_dependency st now api_key none (some sig) payload =
      .error ⟨401, ERRCODE_INVALID_API_KEY, "使用签名验证时，时间戳参数必填"⟩ ∧
    pyContains "使用签名验证时，时间戳参数必填" "时间戳" = true ∧
    ∀ (title content appid secret userid : String)
      (base_url template_id agentid : Option String) (channel : String)
      (tok : Except PyExc VendorJson),
      send_get_vendor_calls st now api_key title content appid secret userid
        base_url template_id agentid channel none (some sig) payload tok = 0 := by
  have hval : validate_api_key_with_signature st now api_key none payload (some sig) =
      (false, "使用签名验证时，时间戳参数必填") := by
    simp [validate_api_key_with_signature, hk, sigTruthy, hs]
  have hcl : classify_auth_errcode "使用签名验证时，时间戳参数必填" =
      ERRCODE_INVALID_API_KEY := by decide
  have hdep : verify_api_key_dependency st now api_key none (some sig) payload =
      .error ⟨401, ERRCODE_INVALID_API_KEY, "使用签名验证时，时间戳参数必填"⟩ := by
    simp [verify_api_key_dependency, hval, hcl]
  refine ⟨hdep, by decide, ?_⟩
  intro title content appid secret userid base_url template_id agentid channel tok
  unfold send_get_vendor_calls
  rw [hdep]

/-- Witness for the amended C4 at a concrete request. -/
theorem claim4_witness :
    verify_api_key_dependency wtSettings 1700000001 "test_api_key_12345" none
      (some "deadbeef") "p" =
      .error ⟨401, ERRCODE_INVALID_API_KEY, "使用签名验证时，时间戳参数必填"⟩ ∧
    send_get_vendor_calls wtSettings 1700000001 "test_api_key_12345" "t" "c" "a"
      "s" "u" none none none "wechat" none (some "deadbeef") "p" wtTokOK = 0 := by
  have h := claim4_missing_timestamp_amended wtSettings 1700000001
    "test_api_key_12345" "p" "deadbeef" (by decide) (by decide)
  exact ⟨h.1, h.2.2 "t" "c" "a" "s" "u" none none none "wechat" wtTokOK⟩

/-- Claim C7: a GET request whose channel is neither "wechat" nor
"workwechat" causes zero vendor calls, and — once the api-key dependency
has passed — is rejected with HTTP 400 / errcode 40000 by the channel
check of `parse_send_request_from_query`. -/
theorem claim7_unknown_channel_rejected (st : Settings) (now : Int)
    (api_key title content appid secret userid : String)
    (base_url template_id agentid : Option String) (channel : String)
    (timestamp : Option Int) (signature : Option String) (payload : String)
    (tok post : Except PyExc VendorJson)
    (hc1 : channel ≠ "wechat") (hc2 : channel ≠ "workwechat") :
    send_get_vendor_calls st now api_key title content appid secret userid
      base_url template_id agentid channel timestamp signature payload tok = 0 ∧
    ∀ key, verify_api_key_dependency st now api_key timestamp signature payload = .ok key →
      send_message_get st now api_key title content appid secret userid base_url
        template_id agentid channel timestamp signature payload tok post =
        .error ⟨400, 40000, "无效的 channel 参数: " ++ channel ++ "，必须是 'wechat' 或 'workwechat'"⟩ := by
  have hparse : ∀ key, parse_send_request_from_query key title content appid secret
      userid base_url template_id agentid channel timestamp signature =
      .error ⟨400, 40000, "无效的 channel 参数: " ++ channel ++ "，必须是 'wechat' 或 'workwechat'"⟩ := by
    intro key
    simp [parse_send_request_from_query, hc1, hc2]
  constructor
  · unfold send_get_vendor_calls
    cases hdep : verify_api_key_dependency st now api_key timestamp signature payload with
    | error e => rfl
    | ok key => simp only [hparse]
  · intro key hk
    simp only [send_message_get, hk, hparse]

/-- Witness for C7: `channel="bogus"` with a valid key yields HTTP 400 /
40000 and zero vendor calls. -/
theorem claim7_witness :
    send_message_get wtSettings 1700000000 "test_api_key_12345" "t" "c" "a" "s" "u"
      none none none "bogus" none none "" wtTokOK wtSendOK =
      .error ⟨400, 40000, "无效的 channel 参数: bogus，必须是 'wechat' 或 'workwechat'"⟩ ∧
    send_get_vendor_calls wtSettings 1700000000 "test_api_key_12345" "t" "c" "a" "s"
      "u" none none none "bogus" none none "" wtTokOK = 0 := by
  have h := claim7_unknown_channel_rejected wtSettings 1700000000 "test_api_key_12345"
    "t" "c" "a" "s" "u" none none none "bogus" none none "" wtTokOK wtSendOK
    (by decide) (by decide)
  exact ⟨h.2 "test_api_key_12345" (by decide), h.1⟩

/-- Claim C6: when no template id is available (no parameter, no
configured default), `send_template_message` raises (`ValueError`),
and `send_message` — its token fetch having succeeded — converts it to
a `SendResult` with the generic errcode 50000 and `msgid = None`, the
message text carrying no `errcode=` marker. -/
theorem claim6_template_required (st : Settings) (template_id : Option String)
    (tok post : Except PyExc VendorJson) (tokv : String × Int)
    (hd : st.default_wechat_template_id.getD "" = "")
    (ht : template_id = none ∨ template_id = some "")
    (htok : http_get_access_token tok = .ok tokv) :
    send_template_message st template_id post =
      .error (.valueError TEMPLATE_ID_REQUIRED_MSG) ∧
    wechat_send_message st template_id tok post =
      ⟨50000, TEMPLATE_ID_REQUIRED_MSG, none⟩ ∧
    extract_errcode TEMPLATE_ID_REQUIRED_MSG = 50000 := by
  have hres : resolveTemplateId st template_id = "" := by
    rcases ht with rfl | rfl <;> simp [resolveTemplateId, hd]
  have hstm : send_template_message st template_id post =
      .error (.valueError TEMPLATE_ID_REQUIRED_MSG) := by
    simp [send_template_message, hres]
  have hex : extract_errcode TEMPLATE_ID_REQUIRED_MSG = 50000 := by decide
  refine ⟨hstm, ?_, hex⟩
  simp [wechat_send_message, htok, hstm, dispatch_error_result, hex]

/-- Witness for C6 at a concrete configuration with a successful token
fetch. -/
theorem claim6_witness :
    wechat_send_message ⟨["k"], none, none, none⟩ none wtTokOK wtSendOK =
      ⟨50000, TEMPLATE_ID_REQUIRED_MSG, none⟩ := by
  have h := claim6_template_required ⟨["k"], none, none, none⟩ none wtTokOK wtSendOK
    ("T", 7200) (by decide) (Or.inl rfl) (by decide)
  exact h.2.1

end WXPush
